import Mathlib

/-!
Verification of the update-throttling policy in `diagnosis_throttler.py`
(`DiagnosisThrottler`): the decision function `should_send_update`, the
state update `mark_sent`, and the configuration fallback in `__init__` /
`_load_config`.  Time is modelled as an integer number of seconds
(`time.time()` readings enter the logic only through order comparisons
with the configured intervals, so any linearly ordered time domain gives
the same case analysis); word counting and substring containment are
modelled after Python's `str.split()` and the `in` operator.
-/

namespace DiagnosisThrottler

/-- Word-count helper: scans characters keeping track of whether we are
inside a word, counting each transition from outside to inside a word.
This computes `len(s.split())` for Python's whitespace split (runs of
whitespace separate words, boundary whitespace yields no empty tokens). -/
def countWordsAux : List Char → Bool → Nat
  | [], _ => 0
  | c :: cs, inWord =>
    if c.isWhitespace then countWordsAux cs false
    else (if inWord then 0 else 1) + countWordsAux cs true

/-- `len(narrative.split())` from the Python source: the number of
whitespace-delimited tokens of `s`. -/
def wordCount (s : String) : Nat :=
  countWordsAux s.toList false

/-- Character-list version of "starts with": `needle` occurs at the head
of `haystack`. -/
def charsBeginWith : List Char → List Char → Bool
  | [], _ => true
  | _ :: _, [] => false
  | a :: as, b :: bs => a == b && charsBeginWith as bs

/-- Character-list version of substring containment. -/
def charsContain (needle : List Char) : List Char → Bool
  | [] => needle.isEmpty
  | b :: bs => charsBeginWith needle (b :: bs) || charsContain needle bs

/-- Python's `needle in haystack` substring test on strings. -/
def strContains (haystack needle : String) : Bool :=
  charsContain needle.toList haystack.toList

/-- The throttling configuration extracted in `__init__` from the
`diagnosis_throttling` section of the YAML config. -/
structure ThrottleConfig where
  minimum_interval : ℤ
  maximum_interval : ℤ
  word_count_threshold : ℤ
  trigger_sections : List String
  deriving Repr, DecidableEq

/-- The mutable state of a `DiagnosisThrottler` instance:
`last_sent_time`, `last_sent_narrative`, `last_sent_word_count`. -/
structure ThrottleState where
  last_sent_time : ℤ
  last_sent_narrative : String
  last_sent_word_count : Nat
  deriving Repr, DecidableEq

/-- The state set in `__init__`: `last_sent_time = 0`,
`last_sent_narrative = ""`, `last_sent_word_count = 0` (NEVER_SENT). -/
def initState : ThrottleState :=
  { last_sent_time := 0, last_sent_narrative := "", last_sent_word_count := 0 }

/-- The raw `diagnosis_throttling` mapping as read from YAML: each
recognized key may be present or absent (`dict.get` with a default). -/
structure RawThrottleConfig where
  minimum_interval_seconds : Option ℤ
  maximum_interval_seconds : Option ℤ
  word_count_threshold : Option ℤ
  trigger_sections : Option (List String)

/-- Configuration extraction from `__init__` together with `_load_config`:
`none` stands for the cases where `_load_config` returned `{}` (missing or
malformed file) or the `diagnosis_throttling` key is absent, so that every
key falls back; otherwise each key individually falls back to its default
(`dict.get(key, default)`): 15, 60, 20, `[]`. -/
def loadConfig (raw : Option RawThrottleConfig) : ThrottleConfig :=
  match raw with
  | none =>
    { minimum_interval := 15, maximum_interval := 60
      word_count_threshold := 20, trigger_sections := [] }
  | some r =>
    { minimum_interval := r.minimum_interval_seconds.getD 15
      maximum_interval := r.maximum_interval_seconds.getD 60
      word_count_threshold := r.word_count_threshold.getD 20
      trigger_sections := r.trigger_sections.getD [] }

/-- The default configuration documented in the source. -/
def defaultConfig : ThrottleConfig :=
  { minimum_interval := 15, maximum_interval := 60
    word_count_threshold := 20, trigger_sections := [] }

/-- `should_send_update(narrative)` from the source, with the
`time.time()` reading passed explicitly as `current_time`.  The checks
run in source order: minimum interval, unchanged narrative, maximum
interval, word-count threshold, trigger sections. -/
def should_send_update (cfg : ThrottleConfig) (st : ThrottleState)
    (current_time : ℤ) (narrative : String) : Bool :=
  let time_since_last := current_time - st.last_sent_time
  if time_since_last < cfg.minimum_interval then false
  else if narrative = st.last_sent_narrative then false
  else if cfg.maximum_interval ≤ time_since_last then true
  else
    let current_word_count : ℤ := (wordCount narrative : ℤ)
    let words_added : ℤ := current_word_count - (st.last_sent_word_count : ℤ)
    if cfg.word_count_threshold ≤ words_added then true
    else if cfg.trigger_sections.any (fun m =>
        strContains narrative m && !(strContains st.last_sent_narrative m)) then true
    else false

/-- `mark_sent(narrative)` from the source, with the `time.time()`
reading passed explicitly: records time, text and recomputed word count. -/
def mark_sent (_st : ThrottleState) (current_time : ℤ)
    (narrative : String) : ThrottleState :=
  { last_sent_time := current_time
    last_sent_narrative := narrative
    last_sent_word_count := wordCount narrative }

/-- States reachable by a `DiagnosisThrottler` instance: the initial
state, and any state produced by `mark_sent`.  `should_send_update`
mutates nothing, so it contributes no transition. -/
inductive Reachable : ThrottleState → Prop
  | init : Reachable initState
  | send : ∀ (st : ThrottleState) (t : ℤ) (x : String),
      Reachable st → Reachable (mark_sent st t x)

end DiagnosisThrottler

namespace DiagnosisThrottler

/-- C1: Floor invariant — for every config and state, if the elapsed time
since `last_sent_time` is strictly below `minimum_interval`, then
`should_send_update` returns false for every candidate narrative. -/
theorem C1_floor_invariant (cfg : ThrottleConfig) (st : ThrottleState)
    (t : ℤ) (narrative : String)
    (h : t - st.last_sent_time < cfg.minimum_interval) :
    should_send_update cfg st t narrative = false := by
  simp [should_send_update, h]

/-- C1 witness: the floor invariant evaluated on the default config in the
initial state at time 5 with a concrete candidate. -/
theorem C1_floor_invariant_witness :
    (5 : ℤ) - initState.last_sent_time < defaultConfig.minimum_interval ∧
    should_send_update defaultConfig initState 5 "Patient reports headache." = false :=
  ⟨by decide, C1_floor_invariant defaultConfig initState 5
    "Patient reports headache." (by decide)⟩

/-- C2 counterexample: with `minimum_interval = 60` and
`maximum_interval = 15`, at elapsed time 20 the candidate `"a"` differs
from the last narrative and `elapsed ≥ maximum_interval`, yet
`should_send_update` returns false, because the minimum-interval check
runs first.  So the ceiling invariant fails for configs with
`maximum_interval < minimum_interval`. -/
theorem C2_ceiling_counterexample :
    (ThrottleConfig.mk 60 15 20 []).maximum_interval ≤
      (20 : ℤ) - initState.last_sent_time ∧
    "a" ≠ initState.last_sent_narrative ∧
    should_send_update (ThrottleConfig.mk 60 15 20 []) initState 20 "a" = false := by
  refine ⟨by decide, by decide, by decide⟩

/-- C2 (amended): for every state where the elapsed time has also reached
`minimum_interval`, if `elapsed ≥ maximum_interval` and the candidate
differs from `last_sent_narrative`, `should_send_update` returns true. -/
theorem C2_ceiling_invariant (cfg : ThrottleConfig) (st : ThrottleState)
    (t : ℤ) (narrative : String)
    (hmin : cfg.minimum_interval ≤ t - st.last_sent_time)
    (hmax : cfg.maximum_interval ≤ t - st.last_sent_time)
    (hne : narrative ≠ st.last_sent_narrative) :
    should_send_update cfg st t narrative = true := by
  simp [should_send_update, not_lt.mpr hmin, hne, hmax]

/-- C2 witness: the amended ceiling invariant evaluated on the default
config in the initial state at time 100. -/
theorem C2_ceiling_invariant_witness :
    defaultConfig.minimum_interval ≤ (100 : ℤ) - initState.last_sent_time ∧
    defaultConfig.maximum_interval ≤ (100 : ℤ) - initState.last_sent_time ∧
    "hi" ≠ initState.last_sent_narrative ∧
    should_send_update defaultConfig initState 100 "hi" = true :=
  ⟨by decide, by decide, by decide,
    C2_ceiling_invariant defaultConfig initState 100 "hi"
      (by decide) (by decide) (by decide)⟩

/-- C3: a candidate identical to `last_sent_narrative` is rejected once
the minimum interval has elapsed — for every config and state, including
states where the elapsed time has also reached `maximum_interval`
(the unchanged-content check precedes the maximum-interval check, so
staleness alone never forces a resend of identical text). -/
theorem C3_identical_rejected (cfg : ThrottleConfig) (st : ThrottleState)
    (t : ℤ) (narrative : String)
    (heq : narrative = st.last_sent_narrative)
    (_hmin : cfg.minimum_interval ≤ t - st.last_sent_time) :
    should_send_update cfg st t narrative = false := by
  simp [should_send_update, heq]

/-- C3 witness: identical candidate rejected at elapsed time 1000, far
past the default maximum interval of 60. -/
theorem C3_identical_rejected_witness :
    ("same text" : String) = (ThrottleState.mk 0 "same text" 2).last_sent_narrative ∧
    defaultConfig.minimum_interval ≤
      (1000 : ℤ) - (ThrottleState.mk 0 "same text" 2).last_sent_time ∧
    should_send_update defaultConfig (ThrottleState.mk 0 "same text" 2)
      1000 "same text" = false :=
  ⟨by decide, by decide,
    C3_identical_rejected defaultConfig (ThrottleState.mk 0 "same text" 2)
      1000 "same text" (by decide) (by decide)⟩

/-- C4: word-count trigger — if `minimum_interval ≤ elapsed <
maximum_interval`, the candidate differs from the last narrative, and the
number of added words reaches `word_count_threshold`, then
`should_send_update` returns true. -/
theorem C4_word_count_trigger (cfg : ThrottleConfig) (st : ThrottleState)
    (t : ℤ) (narrative : String)
    (hmin : cfg.minimum_interval ≤ t - st.last_sent_time)
    (hmax : t - st.last_sent_time < cfg.maximum_interval)
    (hne : narrative ≠ st.last_sent_narrative)
    (hwc : cfg.word_count_threshold ≤
      (wordCount narrative : ℤ) - (st.last_sent_word_count : ℤ)) :
    should_send_update cfg st t narrative = true := by
  simp [should_send_update, not_lt.mpr hmin, hne, not_le.mpr hmax, hwc]

/-- C4 witness: a three-word candidate with threshold 2 sent at elapsed
time 20, between the default floor 15 and ceiling 60. -/
theorem C4_word_count_trigger_witness :
    (ThrottleConfig.mk 15 60 2 []).minimum_interval ≤
      (20 : ℤ) - initState.last_sent_time ∧
    (20 : ℤ) - initState.last_sent_time <
      (ThrottleConfig.mk 15 60 2 []).maximum_interval ∧
    "a b c" ≠ initState.last_sent_narrative ∧
    (ThrottleConfig.mk 15 60 2 []).word_count_threshold ≤
      (wordCount "a b c" : ℤ) - (initState.last_sent_word_count : ℤ) ∧
    should_send_update (ThrottleConfig.mk 15 60 2 []) initState 20 "a b c" = true :=
  ⟨by decide, by decide, by decide, by decide,
    C4_word_count_trigger (ThrottleConfig.mk 15 60 2 []) initState 20 "a b c"
      (by decide) (by decide) (by decide) (by decide)⟩

/-- C5: trigger-section edge case — with `minimum_interval ≤ elapsed <
maximum_interval`, a changed candidate, too few added words, and every
configured marker occurring in the candidate also occurring in the last
sent narrative, `should_send_update` returns false: a marker present in
both texts never forces a send. -/
theorem C5_trigger_section_edge (cfg : ThrottleConfig) (st : ThrottleState)
    (t : ℤ) (narrative : String)
    (hmin : cfg.minimum_interval ≤ t - st.last_sent_time)
    (hmax : t - st.last_sent_time < cfg.maximum_interval)
    (hne : narrative ≠ st.last_sent_narrative)
    (hwc : (wordCount narrative : ℤ) - (st.last_sent_word_count : ℤ) <
      cfg.word_count_threshold)
    (htrig : ∀ m ∈ cfg.trigger_sections,
      strContains narrative m = true → strContains st.last_sent_narrative m = true) :
    should_send_update cfg st t narrative = false := by
  simp [should_send_update, not_lt.mpr hmin, hne, not_le.mpr hmax,
    not_le.mpr hwc]
  intro m hm hnar
  exact htrig m hm hnar

/-- C5 witness: the marker "ALLERGIES:" occurs in both the last narrative
and the candidate, the candidate adds one word (threshold 20), and the
send is rejected at elapsed time 20. -/
theorem C5_trigger_section_edge_witness :
    (ThrottleConfig.mk 15 60 20 ["ALLERGIES:"]).minimum_interval ≤
      (20 : ℤ) - (ThrottleState.mk 0 "ALLERGIES: none" 2).last_sent_time ∧
    (20 : ℤ) - (ThrottleState.mk 0 "ALLERGIES: none" 2).last_sent_time <
      (ThrottleConfig.mk 15 60 20 ["ALLERGIES:"]).maximum_interval ∧
    "ALLERGIES: none known" ≠
      (ThrottleState.mk 0 "ALLERGIES: none" 2).last_sent_narrative ∧
    (wordCount "ALLERGIES: none known" : ℤ) -
      ((ThrottleState.mk 0 "ALLERGIES: none" 2).last_sent_word_count : ℤ) <
      (ThrottleConfig.mk 15 60 20 ["ALLERGIES:"]).word_count_threshold ∧
    should_send_update (ThrottleConfig.mk 15 60 20 ["ALLERGIES:"])
      (ThrottleState.mk 0 "ALLERGIES: none" 2) 20 "ALLERGIES: none known" = false :=
  ⟨by decide, by decide, by decide, by decide,
    C5_trigger_section_edge (ThrottleConfig.mk 15 60 20 ["ALLERGIES:"])
      (ThrottleState.mk 0 "ALLERGIES: none" 2) 20 "ALLERGIES: none known"
      (by decide) (by decide) (by decide) (by decide)
      (by intro m hm; fin_cases hm; decide)⟩

/-- C6: first-send behavior — from the initial NEVER_SENT state
(`last_sent_time = 0`, `last_sent_narrative = ""`), any non-empty
candidate is approved at any evaluation time that has reached both
configured intervals (the "enormous elapsed time" of a realistic
wall-clock reading against epoch 0). -/
theorem C6_first_send (cfg : ThrottleConfig) (t : ℤ) (narrative : String)
    (hmin : cfg.minimum_interval ≤ t) (hmax : cfg.maximum_interval ≤ t)
    (hne : narrative ≠ "") :
    should_send_update cfg initState t narrative = true := by
  have h1 : ¬ (t - initState.last_sent_time < cfg.minimum_interval) := by
    simp [initState]; exact hmin
  have h2 : cfg.maximum_interval ≤ t - initState.last_sent_time := by
    simp [initState]; exact hmax
  simp [should_send_update, h1, h2, initState, hne]
  exact ⟨hmin, Or.inl hmax⟩

/-- C6 witness: the spec's first-send scenario — default config, never
sent, candidate "Patient reports headache." at wall-clock time 1000. -/
theorem C6_first_send_witness :
    defaultConfig.minimum_interval ≤ (1000 : ℤ) ∧
    defaultConfig.maximum_interval ≤ (1000 : ℤ) ∧
    ("Patient reports headache." : String) ≠ "" ∧
    should_send_update defaultConfig initState 1000
      "Patient reports headache." = true :=
  ⟨by decide, by decide, by decide,
    C6_first_send defaultConfig 1000 "Patient reports headache."
      (by decide) (by decide) (by decide)⟩

/-- C7: configuration fallback — `loadConfig` is total (construction
never fails), a missing or malformed config source (or missing
`diagnosis_throttling` section) yields exactly the documented defaults,
and each individually-absent key falls back to its own default:
`minimum_interval = 15`, `maximum_interval = 60`,
`word_count_threshold = 20`, `trigger_sections = []`. -/
theorem C7_config_fallback (raw : Option RawThrottleConfig) :
    (raw = none → loadConfig raw = defaultConfig) ∧
    ∀ r : RawThrottleConfig, raw = some r →
      (r.minimum_interval_seconds = none →
        (loadConfig raw).minimum_interval = 15) ∧
      (r.maximum_interval_seconds = none →
        (loadConfig raw).maximum_interval = 60) ∧
      (r.word_count_threshold = none →
        (loadConfig raw).word_count_threshold = 20) ∧
      (r.trigger_sections = none →
        (loadConfig raw).trigger_sections = []) := by
  constructor
  · rintro rfl; rfl
  · rintro r rfl
    refine ⟨?_, ?_, ?_, ?_⟩ <;> intro h <;> simp [loadConfig, h]

/-- C7 witness: the fallback evaluated at a missing config source and at
a present section with every key absent. -/
theorem C7_config_fallback_witness :
    loadConfig none = defaultConfig ∧
    (loadConfig (some (RawThrottleConfig.mk none none none none))).minimum_interval = 15 ∧
    (loadConfig (some (RawThrottleConfig.mk none none none none))).maximum_interval = 60 ∧
    (loadConfig (some (RawThrottleConfig.mk none none none none))).word_count_threshold = 20 ∧
    (loadConfig (some (RawThrottleConfig.mk none none none none))).trigger_sections = [] :=
  ⟨(C7_config_fallback none).1 rfl,
    ((C7_config_fallback (some (RawThrottleConfig.mk none none none none))).2
      (RawThrottleConfig.mk none none none none) rfl).1 rfl,
    ((C7_config_fallback (some (RawThrottleConfig.mk none none none none))).2
      (RawThrottleConfig.mk none none none none) rfl).2.1 rfl,
    ((C7_config_fallback (some (RawThrottleConfig.mk none none none none))).2
      (RawThrottleConfig.mk none none none none) rfl).2.2.1 rfl,
    ((C7_config_fallback (some (RawThrottleConfig.mk none none none none))).2
      (RawThrottleConfig.mk none none none none) rfl).2.2.2 rfl⟩

/-- C8: idempotence of `mark_sent` — calling it twice with the same text
yields exactly the state of a single call at the second time: the
narrative and word count are unchanged by the repeated call and only the
timestamp holds the second call's time. -/
theorem C8_mark_sent_idempotent (st : ThrottleState) (t₁ t₂ : ℤ) (x : String) :
    mark_sent (mark_sent st t₁ x) t₂ x = mark_sent st t₂ x ∧
    (mark_sent (mark_sent st t₁ x) t₂ x).last_sent_narrative =
      (mark_sent st t₁ x).last_sent_narrative ∧
    (mark_sent (mark_sent st t₁ x) t₂ x).last_sent_word_count =
      (mark_sent st t₁ x).last_sent_word_count ∧
    (mark_sent (mark_sent st t₁ x) t₂ x).last_sent_time = t₂ :=
  ⟨rfl, rfl, rfl, rfl⟩

/-- C9: word-count consistency — in every reachable state (initial state
or after any sequence of operations; `should_send_update` performs no
mutation), `last_sent_word_count` equals `wordCount` of
`last_sent_narrative`, the same counting function used by the threshold
check. -/
theorem C9_word_count_consistent (st : ThrottleState) (h : Reachable st) :
    st.last_sent_word_count = wordCount st.last_sent_narrative := by
  induction h with
  | init => rfl
  | send st t x _ _ => rfl

/-- C9 witness: the invariant holds in the reachable initial state. -/
theorem C9_word_count_consistent_witness :
    initState.last_sent_word_count = wordCount initState.last_sent_narrative :=
  C9_word_count_consistent initState Reachable.init

/-- C10: empty candidate in the initial state — before any `mark_sent`,
`should_send_update ""` returns false at every evaluation time, because
the candidate equals the initial empty `last_sent_narrative`. -/
theorem C10_empty_candidate_rejected (cfg : ThrottleConfig) (t : ℤ) :
    should_send_update cfg initState t "" = false := by
  simp [should_send_update, initState]

end DiagnosisThrottler
